import Mathlib

/-!
# Keyboard-shortcut dispatcher (`static/js/hotkeys.js`)

A shallow embedding of the `keydown` listener of `hotkeys.js` and of the helpers it calls.

* DOM elements are abstract identities (`Node`); the page is the record of what the
  listener's queries return (`getElementById`, `querySelector`, `window.bootstrap?.X`,
  the `csrftoken` cookie) together with the three pieces of state the listener writes
  and the properties read back: the class list of the document root, the text of the
  live region and the page location.
* Every observable action of the listener is an `Effect`; a run of the listener is the
  list of effects it performs before it returns (`sync`) and the list it performs after
  the awaited `fetch` has settled (`deferred`).
* Platform functions that are not part of the repository (`decodeURIComponent`, the
  settlement of `fetch`) are fields of `Platform`.
* The live region is created once at start-up (lines 58-68) and exists whenever the
  listener runs; `openFilters` (lines 31-48) is never called by the script and is not
  modelled.
-/

namespace Hotkeys

/-- Identity of a DOM element. -/
abbrev Node := Nat

/-- A thrown JavaScript value, identified by its message. -/
abbrev JsError := String

/-! ## Data model -/

/-- What `isEditable` reads from `e.target`: `tagName` is `undefined` for targets that
are not elements (document, window). -/
structure Element where
  tagName : Option String
  isContentEditable : Bool
deriving DecidableEq, Repr

/-- A key-down event: `e.key`, `e.shiftKey`, `e.target` (`none` for a null target). -/
structure KeyEvent where
  key : String
  shiftKey : Bool
  target : Option Element
deriving DecidableEq, Repr

/-- The `data-*` attributes of `<body>` read at start-up (`none` is `undefined`). -/
structure Dataset where
  urlHome : Option String
  urlCatalog : Option String
  urlCart : Option String
  urlCheckout : Option String
  urlFilters : Option String
  urlNext : Option String
  urlPrev : Option String
  urlAdminOrders : Option String
  urlToggleTheme : Option String
  role : Option String
deriving DecidableEq, Repr

/-- The `urls` object of the script. -/
structure Urls where
  home : Option String
  catalog : Option String
  cart : Option String
  checkout : Option String
  filters : Option String
  next : Option String
  prev : Option String
  adminOrders : Option String
  toggleTheme : Option String
deriving DecidableEq, Repr

/-- The constants `urls` and `role` captured by the listener. -/
structure Context where
  urls : Urls
  role : String
deriving DecidableEq, Repr

/-- The element found by the search-input selector, and whether it has a `select` method. -/
structure SearchInput where
  node : Node
  hasSelect : Bool
deriving DecidableEq, Repr

/-- The first element matching `.offcanvas.show, .modal.show`, with the first of its
descendants matching the dismiss selector, if any. -/
structure Overlay where
  node : Node
  dismiss : Option Node
deriving DecidableEq, Repr

/-- The page as the listener sees it. -/
structure Page where
  /-- Result of `document.querySelector('#searchInput, [name="q"], [type="search"]')`. -/
  searchInput : Option SearchInput
  /-- Result of `document.querySelector('#filters.offcanvas, .offcanvas#filters, [data-filters-panel="1"]')`. -/
  filterPanel : Option Node
  /-- Result of `document.getElementById('hotkeysModal')`. -/
  hotkeysModal : Option Node
  /-- Result of `document.querySelector('.offcanvas.show, .modal.show')`. -/
  opened : Option Overlay
  /-- Truthiness of `window.bootstrap?.Offcanvas`. -/
  bootstrapOffcanvas : Bool
  /-- Truthiness of `window.bootstrap?.Modal`. -/
  bootstrapModal : Bool
  /-- Last capture group of the `csrftoken` pattern on `document.cookie`, `none` when the
  pattern does not match. -/
  csrfCookie : Option String
  /-- Tokens of `document.documentElement.classList`. -/
  rootClasses : List String
  /-- Text content of the live region `#hotkeys-live`. -/
  liveText : String
  /-- The page location. -/
  location : String
deriving DecidableEq, Repr

/-- Platform behaviour outside the repository. -/
structure Platform where
  /-- Platform function `decodeURIComponent`: the decoded string, or the thrown `URIError`. -/
  decodeURIComponent : String → Except JsError String
  /-- Whether the promise returned by `fetch` for this URL rejects. -/
  fetchRejects : String → Bool

/-- Observable actions of the script. -/
inductive Effect where
  | preventDefault
  | assign (url : String)
  | reload (forced : Bool)
  | focus (n : Node)
  | select (n : Node)
  | offcanvasShow (n : Node)
  | modalShow (n : Node)
  | classAdd (n : Node) (cls : String)
  | styleDisplay (n : Node) (value : String)
  | removeAttribute (n : Node) (attr : String)
  | bodyClassAdd (cls : List String)
  | click (n : Node)
  | toggleRootClass (cls : String)
  | fetch (url : String) (csrfToken : String)
  | announce (msg : String)
deriving DecidableEq, Repr

/-- Effects of one run: before the listener returns, and after the awaited request settled. -/
structure Trace where
  sync : List Effect
  deferred : List Effect
deriving DecidableEq, Repr

/-- A run of an `async` function: its effects and the settlement of the promise it returns. -/
structure AsyncRun where
  sync : List Effect
  deferred : List Effect
  outcome : Except JsError Unit

/-! ## Start-up -/

/-- JavaScript truthiness of a value that is a string or `undefined`. -/
def truthy : Option String → Bool
  | some s => s != ""
  | none => false

/-- The expression `$body.dataset.role || "guest"`. -/
def readRole (r : Option String) : String :=
  match r with
  | some s => if s = "" then "guest" else s
  | none => "guest"

/-- Lines 11-23: `urls` and `role` from the dataset of `<body>`. -/
def readContext (ds : Dataset) : Context :=
  { urls :=
      { home := ds.urlHome
        catalog := ds.urlCatalog
        cart := ds.urlCart
        checkout := ds.urlCheckout
        filters := ds.urlFilters
        next := ds.urlNext
        prev := ds.urlPrev
        adminOrders := ds.urlAdminOrders
        toggleTheme := ds.urlToggleTheme }
    role := readRole ds.role }

/-! ## Helpers of the script -/

/-- Lines 2-8. -/
def isEditable (el : Option Element) : Bool :=
  match el with
  | none => false
  | some e =>
    e.tagName == some "INPUT" ||
    e.tagName == some "TEXTAREA" ||
    e.isContentEditable ||
    e.tagName == some "SELECT"

/-- Line 26: `if (url) location.assign(url)`. -/
def go (url : Option String) : List Effect :=
  match url with
  | some u => if u = "" then [] else [Effect.assign u]
  | none => []

/-- Lines 27-30. -/
def focusSearch (page : Page) : List Effect :=
  match page.searchInput with
  | some search =>
    if search.hasSelect then [Effect.focus search.node, Effect.select search.node]
    else [Effect.focus search.node]
  | none => []

/-- Lines 71-75: the token, or the error thrown by `decodeURIComponent`. -/
def getCSRF (pf : Platform) (page : Page) : Except JsError String :=
  match page.csrfCookie with
  | some raw => pf.decodeURIComponent raw
  | none => Except.ok ""

/-- The message announced by `toggleTheme`. -/
def themeMessage : String := "Тема переключена"

/-- Lines 49-57. The argument `getCSRF()` is evaluated before `fetch` is called, so a
throwing `getCSRF` leaves the `try` block without a request and without reaching the
`await`; once `fetch` has been called the function is suspended and `announce` runs after
the request settled. `catch {}` discards whatever was thrown. -/
def toggleTheme (ctx : Context) (pf : Platform) (page : Page) : AsyncRun :=
  let toggled := [Effect.toggleRootClass "theme-dark"]
  let said := [Effect.announce themeMessage]
  match ctx.urls.toggleTheme with
  | none => { sync := toggled ++ said, deferred := [], outcome := Except.ok () }
  | some url =>
    if url = "" then { sync := toggled ++ said, deferred := [], outcome := Except.ok () }
    else
      match getCSRF pf page with
      | Except.error err =>
        let tried : Except JsError Unit := Except.error err
        { sync := toggled ++ said
          deferred := []
          outcome := tried.tryCatch (fun _ => Except.ok ()) }
      | Except.ok token =>
        let tried : Except JsError Unit :=
          if pf.fetchRejects url then Except.error "TypeError: Failed to fetch" else Except.ok ()
        { sync := toggled ++ [Effect.fetch url token]
          deferred := said
          outcome := tried.tryCatch (fun _ => Except.ok ()) }

/-- Lines 77-86. -/
def openHelp (page : Page) : List Effect :=
  match page.hotkeysModal with
  | none => []
  | some modal =>
    if page.bootstrapModal then [Effect.modalShow modal]
    else [Effect.classAdd modal "show", Effect.styleDisplay modal "block"]

/-- Lines 131-150: the body of `case 'f'` after `preventDefault`. -/
def filtersKey (ctx : Context) (page : Page) : List Effect :=
  match page.filterPanel with
  | some panel =>
    if page.bootstrapOffcanvas then [Effect.offcanvasShow panel]
    else
      [ Effect.classAdd panel "show"
      , Effect.styleDisplay panel "block"
      , Effect.removeAttribute panel "aria-hidden"
      , Effect.bodyClassAdd ["offcanvas-backdrop", "show"] ]
  | none => go ctx.urls.filters

/-- Line 157: the role test of `case 'a'`. -/
def elevated (role : String) : Prop :=
  role = "manager" ∨ role = "admin" ∨ role = "staff" ∨ role = "superuser"

instance (role : String) : Decidable (elevated role) := by
  unfold elevated; infer_instance

/-- Line 110: the help combination. -/
def helpCombo (e : KeyEvent) : Prop :=
  e.key = "?" ∨ (e.shiftKey = true ∧ e.key = "/")

instance (e : KeyEvent) : Decidable (helpCombo e) := by
  unfold helpCombo; infer_instance

/-- Lines 116-124: the branch taken when the target is editable. -/
def typingBranch (page : Page) (key : String) : List Effect :=
  if key = "Escape" then
    match page.opened with
    | some ov =>
      match ov.dismiss with
      | some btn => [Effect.click btn]
      | none => []
    | none => []
  else []

/-- Lines 101-164: the `keydown` listener. -/
def onKeydown (ctx : Context) (pf : Platform) (page : Page) (e : KeyEvent) : Trace :=
  let typing := isEditable e.target
  let key := e.key
  let shift := e.shiftKey
  if helpCombo e then
    { sync := Effect.preventDefault :: openHelp page, deferred := [] }
  else if typing = true then
    { sync := typingBranch page key, deferred := [] }
  else if key = "g" then
    { sync := Effect.preventDefault :: go ctx.urls.catalog, deferred := [] }
  else if key = "/" then
    { sync := Effect.preventDefault :: focusSearch page, deferred := [] }
  else if key = "c" then
    { sync := Effect.preventDefault :: go ctx.urls.cart, deferred := [] }
  else if key = "o" then
    { sync := Effect.preventDefault :: go ctx.urls.checkout, deferred := [] }
  else if key = "f" then
    { sync := Effect.preventDefault :: filtersKey ctx page, deferred := [] }
  else if key = "n" then
    { sync := Effect.preventDefault :: go ctx.urls.next, deferred := [] }
  else if key = "p" then
    { sync := Effect.preventDefault :: go ctx.urls.prev, deferred := [] }
  else if key = "t" then
    let run := toggleTheme ctx pf page
    { sync := Effect.preventDefault :: run.sync, deferred := run.deferred }
  else if key = "h" then
    { sync := Effect.preventDefault :: go ctx.urls.home, deferred := [] }
  else if key = "r" then
    { sync := [Effect.preventDefault, Effect.reload shift], deferred := [] }
  else if key = "a" then
    if elevated ctx.role then
      { sync := Effect.preventDefault :: go ctx.urls.adminOrders, deferred := [] }
    else { sync := [], deferred := [] }
  else { sync := [], deferred := [] }

/-! ## Effects on the page -/

/-- Method `DOMTokenList.toggle`: remove the token when present, add it otherwise. -/
def toggleClass (cls : String) (classes : List String) : List String :=
  if cls ∈ classes then classes.filter (fun c => c ≠ cls) else classes ++ [cls]

/-- What an effect does to the modelled state of the page. -/
def applyEffect (p : Page) : Effect → Page
  | Effect.toggleRootClass cls => { p with rootClasses := toggleClass cls p.rootClasses }
  | Effect.announce msg => { p with liveText := msg }
  | Effect.assign url => { p with location := url }
  | _ => p

/-- Effects applied in order. -/
def applyEffects (p : Page) (es : List Effect) : Page :=
  es.foldl applyEffect p

/-- The page when the listener returns. -/
def afterSync (p : Page) (t : Trace) : Page := applyEffects p t.sync

/-- The page once the pending request of the run has settled. -/
def afterSettle (p : Page) (t : Trace) : Page := applyEffects p t.deferred

/-- Presence of the `theme-dark` marker on the document root. -/
def themeDark (p : Page) : Bool := decide ("theme-dark" ∈ p.rootClasses)

/-- Whether an effect is a request (the only requests of the script go to the theme
endpoint). -/
def isFetch : Effect → Bool
  | Effect.fetch _ _ => true
  | _ => false

/-- Number of requests issued by a run. -/
def requests (t : Trace) : Nat :=
  (t.sync ++ t.deferred).countP isFetch

/-- Whether an effect is a navigation (`location.assign`). -/
def isAssign : Effect → Bool
  | Effect.assign _ => true
  | _ => false

/-- The page once a run of an `async` function has completed. -/
def settled (p : Page) (run : AsyncRun) : Page :=
  applyEffects (applyEffects p run.sync) run.deferred

/-- Two key-down events in succession. -/
structure TwoPresses where
  first : Trace
  afterFirst : Page
  second : Trace
  afterSecond : Page
  final : Page

/-- The same key-down event delivered twice. The flag tells whether the request started by
the first press settles before the second press or only after it; `afterFirst` and
`afterSecond` are the pages when the listener returns, `final` the page once every request
has settled. -/
def pressTwice (ctx : Context) (pf : Platform) (page : Page) (e : KeyEvent)
    (settledBetween : Bool) : TwoPresses :=
  let t1 := onKeydown ctx pf page e
  let p1 := afterSync page t1
  let q1 := if settledBetween then afterSettle p1 t1 else p1
  let t2 := onKeydown ctx pf q1 e
  let p2 := afterSync q1 t2
  let fin := if settledBetween then afterSettle p2 t2 else afterSettle (afterSettle p2 t1) t2
  { first := t1, afterFirst := p1, second := t2, afterSecond := p2, final := fin }

/-! ## A model of the platform's `decodeURIComponent`

ECMAScript `Decode` with an empty set of preserved escapes: `%XX` escapes are replaced by
the code point whose UTF-8 encoding they spell, and a `URIError` is thrown for a `%` that is
not followed by two hexadecimal digits or for escapes that are not well-formed UTF-8. -/

/-- The error thrown by `decodeURIComponent`. -/
def uriError : JsError := "URIError: URI malformed"

/-- Value of a hexadecimal digit. -/
def hexDigit (c : Char) : Option Nat :=
  let n := c.toNat
  if 48 ≤ n ∧ n ≤ 57 then some (n - 48)
  else if 97 ≤ n ∧ n ≤ 102 then some (n - 87)
  else if 65 ≤ n ∧ n ≤ 70 then some (n - 55)
  else none

/-- Two hexadecimal digits read as one octet, with the rest of the input. -/
def parseHexOctet : List Char → Option (Nat × List Char)
  | a :: b :: rest =>
    match hexDigit a, hexDigit b with
    | some x, some y => some (16 * x + y, rest)
    | _, _ => none
  | _ => none

/-- Number of leading one bits of an octet (5 stands for five or more). -/
def leadingOnes (b : Nat) : Nat :=
  if b < 128 then 0 else if b < 192 then 1 else if b < 224 then 2
  else if b < 240 then 3 else if b < 248 then 4 else 5

/-- Reads the given number of further `%XX` escapes. -/
def readContinuation : Nat → List Char → Option (List Nat × List Char)
  | 0, cs => some ([], cs)
  | n + 1, c :: cs =>
    if c = '%' then
      match parseHexOctet cs with
      | some (b, rest) =>
        match readContinuation n rest with
        | some (bs, rest2) => some (b :: bs, rest2)
        | none => none
      | none => none
    else none
  | _ + 1, [] => none

/-- Whether an octet is a UTF-8 continuation byte. -/
def isContinuationByte (b : Nat) : Bool := decide (128 ≤ b ∧ b < 192)

/-- The code point encoded by a multi-byte UTF-8 sequence, when it is well-formed
(shortest form, no surrogate, at most U+10FFFF). -/
def utf8CodePoint : List Nat → Option Nat
  | [b0, b1] =>
    let cp := (b0 - 192) * 64 + (b1 - 128)
    if 192 ≤ b0 ∧ b0 < 224 ∧ isContinuationByte b1 = true ∧ 128 ≤ cp then some cp else none
  | [b0, b1, b2] =>
    let cp := (b0 - 224) * 4096 + (b1 - 128) * 64 + (b2 - 128)
    if 224 ≤ b0 ∧ b0 < 240 ∧ isContinuationByte b1 = true ∧ isContinuationByte b2 = true ∧
        2048 ≤ cp ∧ ¬ (55296 ≤ cp ∧ cp ≤ 57343) then some cp else none
  | [b0, b1, b2, b3] =>
    let cp := (b0 - 240) * 262144 + (b1 - 128) * 4096 + (b2 - 128) * 64 + (b3 - 128)
    if 240 ≤ b0 ∧ b0 < 248 ∧ isContinuationByte b1 = true ∧ isContinuationByte b2 = true ∧
        isContinuationByte b3 = true ∧ 65536 ≤ cp ∧ cp ≤ 1114111 then some cp else none
  | _ => none

/-- The decoding loop; every iteration consumes input, so a fuel of the input length
plus one is never exhausted. -/
def decodeLoop : Nat → List Char → List Char → Except JsError (List Char)
  | _, [], acc => Except.ok acc.reverse
  | 0, _ :: _, _ => Except.error uriError
  | fuel + 1, c :: cs, acc =>
    if c = '%' then
      match parseHexOctet cs with
      | none => Except.error uriError
      | some (b, rest) =>
        let n := leadingOnes b
        if n = 0 then decodeLoop fuel rest (Char.ofNat b :: acc)
        else if n = 1 ∨ 4 < n then Except.error uriError
        else
          match readContinuation (n - 1) rest with
          | none => Except.error uriError
          | some (bs, rest2) =>
            match utf8CodePoint (b :: bs) with
            | none => Except.error uriError
            | some cp => decodeLoop fuel rest2 (Char.ofNat cp :: acc)
    else decodeLoop fuel cs (c :: acc)

/-- Model of `decodeURIComponent`. -/
def decodeURIComponent (s : String) : Except JsError String :=
  match decodeLoop (s.length + 1) s.toList [] with
  | Except.ok cs => Except.ok (String.mk cs)
  | Except.error err => Except.error err

/-- A browser: `decodeURIComponent` as modelled, requests that settle successfully. -/
def browser : Platform :=
  { decodeURIComponent := decodeURIComponent, fetchRejects := fun _ => false }

/-- A browser without network: every request rejects. -/
def offlineBrowser : Platform :=
  { decodeURIComponent := decodeURIComponent, fetchRejects := fun _ => true }

/-! ## Sample pages, contexts and events -/

/-- A page with none of the optional elements and no cookie. -/
def barePage : Page :=
  { searchInput := none, filterPanel := none, hotkeysModal := none, opened := none
    bootstrapOffcanvas := false, bootstrapModal := false, csrfCookie := none
    rootClasses := [], liveText := "", location := "/" }

/-- A catalogue page: search box 1, filter panel 2 (open, dismiss button 4), help modal 3,
Bootstrap loaded, a well-formed CSRF cookie. -/
def catalogPage : Page :=
  { searchInput := some { node := 1, hasSelect := true }
    filterPanel := some 2
    hotkeysModal := some 3
    opened := some { node := 2, dismiss := some 4 }
    bootstrapOffcanvas := true, bootstrapModal := true
    csrfCookie := some "abc123"
    rootClasses := ["no-js"], liveText := "", location := "/catalog?page=2" }

/-- A page whose only open overlay (element 5) has no dismiss control. -/
def staticModalPage : Page :=
  { barePage with opened := some { node := 5, dismiss := none } }

/-- A page whose `csrftoken` cookie holds a malformed escape. -/
def malformedCookiePage : Page := { barePage with csrfCookie := some "%" }

/-- The dataset of a guest's page with every URL configured. -/
def guestDataset : Dataset :=
  { urlHome := some "/", urlCatalog := some "/catalog", urlCart := some "/cart"
    urlCheckout := some "/checkout", urlFilters := some "/filters"
    urlNext := some "/catalog?page=3", urlPrev := some "/catalog?page=1"
    urlAdminOrders := some "/admin/orders", urlToggleTheme := some "/theme/toggle"
    role := some "guest" }

/-- The dataset of a manager's page with every URL configured. -/
def managerDataset : Dataset := { guestDataset with role := some "manager" }

/-- The element `document.body`. -/
def bodyElement : Element := { tagName := some "BODY", isContentEditable := false }

/-- An `<input>` element. -/
def inputElement : Element := { tagName := some "INPUT", isContentEditable := false }

/-- A key pressed without shift on `document.body`. -/
def pressOnBody (key : String) : KeyEvent :=
  { key := key, shiftKey := false, target := some bodyElement }

/-- A key pressed without shift inside an `<input>`. -/
def pressInInput (key : String) : KeyEvent :=
  { key := key, shiftKey := false, target := some inputElement }

/-- The help overlay is shown by a list of effects: some element is shown through the
Bootstrap modal API, or gets the class `show` and the display `block`. -/
def HelpShown (es : List Effect) : Prop :=
  ∃ m : Node, Effect.modalShow m ∈ es ∨
    (Effect.classAdd m "show" ∈ es ∧ Effect.styleDisplay m "block" ∈ es)

/-! ## Basic facts -/

theorem isEditable_of_element (el : Element)
    (h : el.tagName = some "INPUT" ∨ el.tagName = some "TEXTAREA" ∨
      el.tagName = some "SELECT" ∨ el.isContentEditable = true) :
    isEditable (some el) = true := by
  simp only [isEditable, Bool.or_eq_true, beq_iff_eq]
  tauto

theorem not_helpCombo_of_key (e : KeyEvent) (h1 : e.key ≠ "?") (h2 : e.key ≠ "/") :
    ¬ helpCombo e := by
  simp [helpCombo, h1, h2]

/-! ## The claims -/

/-- C1: a key-down event whose target is an editable field (tag INPUT, TEXTAREA or SELECT,
or content-editable) and whose key is neither Escape, nor `?`, nor `/` with shift held,
produces no effect at all, for every context, platform and page: no `preventDefault`, no
navigation or reload, no DOM mutation, no request; the page (its location included) is
unchanged. -/
theorem C1_typing_keys_pass_through (ctx : Context) (pf : Platform) (page : Page)
    (e : KeyEvent) (el : Element) (htarget : e.target = some el)
    (hedit : el.tagName = some "INPUT" ∨ el.tagName = some "TEXTAREA" ∨
      el.tagName = some "SELECT" ∨ el.isContentEditable = true)
    (hesc : e.key ≠ "Escape") (hq : e.key ≠ "?")
    (hslash : ¬ (e.shiftKey = true ∧ e.key = "/")) :
    onKeydown ctx pf page e = { sync := [], deferred := [] } ∧
    afterSync page (onKeydown ctx pf page e) = page ∧
    (afterSync page (onKeydown ctx pf page e)).location = page.location := by
  have hed : isEditable e.target = true := by
    rw [htarget]; exact isEditable_of_element el hedit
  have hhelp : ¬ helpCombo e := by
    simp only [helpCombo, not_or]; exact ⟨hq, hslash⟩
  have ht : onKeydown ctx pf page e = { sync := [], deferred := [] } := by
    simp [onKeydown, hhelp, hed, typingBranch, hesc]
  rw [ht]
  exact ⟨rfl, rfl, rfl⟩

theorem C1_typing_keys_pass_through_witness :
    onKeydown (readContext managerDataset) browser catalogPage
        { key := "g", shiftKey := true, target := some inputElement }
      = { sync := [], deferred := [] } :=
  (C1_typing_keys_pass_through (readContext managerDataset) browser catalogPage
    { key := "g", shiftKey := true, target := some inputElement } inputElement rfl
    (Or.inl rfl) (by decide) (by decide) (by decide)).1

/-- C2 as stated fails: on a page without an element with id `hotkeysModal`, pressing `?`
only prevents the default; no overlay is shown. -/
theorem C2_no_help_without_modal_element :
    (onKeydown (readContext guestDataset) browser barePage (pressOnBody "?")).sync
      = [Effect.preventDefault] ∧
    ¬ HelpShown (onKeydown (readContext guestDataset) browser barePage (pressOnBody "?")).sync := by
  have h : (onKeydown (readContext guestDataset) browser barePage (pressOnBody "?")).sync
      = [Effect.preventDefault] := by decide
  refine ⟨h, ?_⟩
  rw [h]
  rintro ⟨m, hm | ⟨hm, _⟩⟩ <;> simp at hm

/-- C2 (amended): for every key-down event with key `?`, or with shift held and key `/`,
editable target or not, for every role and URL configuration, the handler prevents the
default and, when the page has an element with id `hotkeysModal`, shows it (Bootstrap
`Modal.getOrCreateInstance(..).show()` when the library is loaded, otherwise class `show`
added and display set to `block`); when the page has no such element nothing is shown.
In every case nothing else is done: no navigation, no reload, no focus, no click, no
theme toggle, no request. -/
theorem C2_help_shown_when_modal_exists (ctx : Context) (pf : Platform) (page : Page)
    (e : KeyEvent) (hkey : e.key = "?" ∨ (e.shiftKey = true ∧ e.key = "/")) :
    (∀ m, page.hotkeysModal = some m → page.bootstrapModal = true →
      onKeydown ctx pf page e
        = { sync := [Effect.preventDefault, Effect.modalShow m], deferred := [] }) ∧
    (∀ m, page.hotkeysModal = some m → page.bootstrapModal = false →
      onKeydown ctx pf page e
        = { sync := [Effect.preventDefault, Effect.classAdd m "show",
                     Effect.styleDisplay m "block"], deferred := [] }) ∧
    (page.hotkeysModal = none →
      onKeydown ctx pf page e = { sync := [Effect.preventDefault], deferred := [] }) ∧
    (∀ m, page.hotkeysModal = some m → HelpShown (onKeydown ctx pf page e).sync) ∧
    afterSettle (afterSync page (onKeydown ctx pf page e)) (onKeydown ctx pf page e) = page := by
  have hhelp : helpCombo e := hkey
  have ht : onKeydown ctx pf page e
      = { sync := Effect.preventDefault :: openHelp page, deferred := [] } := by
    simp [onKeydown, hhelp]
  rw [ht]
  refine ⟨?_, ?_, ?_, ?_, ?_⟩
  · intro m hm hb; simp [openHelp, hm, hb]
  · intro m hm hb; simp [openHelp, hm, hb]
  · intro hm; simp [openHelp, hm]
  · intro m hm
    refine ⟨m, ?_⟩
    cases hb : page.bootstrapModal <;> simp [openHelp, hm, hb]
  · cases hm : page.hotkeysModal <;> cases hb : page.bootstrapModal <;>
      simp [openHelp, hm, hb, afterSync, afterSettle, applyEffects, applyEffect]

theorem C2_help_shown_when_modal_exists_witness :
    onKeydown (readContext guestDataset) offlineBrowser catalogPage
        { key := "/", shiftKey := true, target := some inputElement }
      = { sync := [Effect.preventDefault, Effect.modalShow 3], deferred := [] } :=
  (C2_help_shown_when_modal_exists (readContext guestDataset) offlineBrowser catalogPage
    { key := "/", shiftKey := true, target := some inputElement }
    (Or.inr ⟨rfl, rfl⟩)).1 3 rfl rfl

/-- C3: pressing `a` on a non-editable target. With role `guest` the handler does nothing
(in particular no navigation) whatever the admin-orders URL is; with role manager, admin,
staff or superuser it calls `location.assign` with exactly the admin-orders URL when that
URL is configured (non-empty), and leaves the location unchanged when it is not. -/
theorem C3_admin_orders_role_gate (ctx : Context) (pf : Platform) (page : Page)
    (e : KeyEvent) (hkey : e.key = "a") (hne : isEditable e.target = false) :
    (ctx.role = "guest" → onKeydown ctx pf page e = { sync := [], deferred := [] }) ∧
    (elevated ctx.role → ∀ u, ctx.urls.adminOrders = some u → u ≠ "" →
      onKeydown ctx pf page e
        = { sync := [Effect.preventDefault, Effect.assign u], deferred := [] } ∧
      (afterSync page (onKeydown ctx pf page e)).location = u) ∧
    (elevated ctx.role → truthy ctx.urls.adminOrders = false →
      onKeydown ctx pf page e = { sync := [Effect.preventDefault], deferred := [] } ∧
      (afterSync page (onKeydown ctx pf page e)).location = page.location) := by
  have hhelp : ¬ helpCombo e := not_helpCombo_of_key e (by rw [hkey]; decide) (by rw [hkey]; decide)
  refine ⟨?_, ?_, ?_⟩
  · intro hr
    have hel : ¬ elevated ctx.role := by rw [hr]; decide
    simp [onKeydown, hhelp, hne, hkey, hel]
  · intro hel u hu hu0
    have ht : onKeydown ctx pf page e
        = { sync := [Effect.preventDefault, Effect.assign u], deferred := [] } := by
      simp [onKeydown, hhelp, hne, hkey, hel, go, hu, hu0]
    rw [ht]
    exact ⟨rfl, rfl⟩
  · intro hel hu
    have hgo : go ctx.urls.adminOrders = [] := by
      cases hurl : ctx.urls.adminOrders with
      | none => rfl
      | some u =>
        rw [hurl] at hu
        have : u = "" := by simpa [truthy] using hu
        simp [go, this]
    have ht : onKeydown ctx pf page e
        = { sync := [Effect.preventDefault], deferred := [] } := by
      simp [onKeydown, hhelp, hne, hkey, hel, hgo]
    rw [ht]
    exact ⟨rfl, rfl⟩

theorem C3_admin_orders_role_gate_witness :
    onKeydown (readContext guestDataset) browser catalogPage (pressOnBody "a")
        = { sync := [], deferred := [] } ∧
    onKeydown (readContext managerDataset) browser catalogPage (pressOnBody "a")
        = { sync := [Effect.preventDefault, Effect.assign "/admin/orders"], deferred := [] } :=
  ⟨(C3_admin_orders_role_gate (readContext guestDataset) browser catalogPage
      (pressOnBody "a") rfl rfl).1 rfl,
   ((C3_admin_orders_role_gate (readContext managerDataset) browser catalogPage
      (pressOnBody "a") rfl rfl).2.1 (by decide) "/admin/orders" rfl (by decide)).1⟩

/-- C4: pressing `f` on a non-editable target. If a filter panel element exists, the handler
performs no navigation at all (so none to the filters URL) and the location is unchanged,
whatever the filters URL is and whether or not Bootstrap is loaded; if no filter panel
exists and the filters URL is configured (non-empty), the handler calls `location.assign`
with exactly that URL. -/
theorem C4_filters_panel_or_navigation (ctx : Context) (pf : Platform) (page : Page)
    (e : KeyEvent) (hkey : e.key = "f") (hne : isEditable e.target = false) :
    (∀ panel, page.filterPanel = some panel →
      (∀ x ∈ (onKeydown ctx pf page e).sync ++ (onKeydown ctx pf page e).deferred,
        isAssign x = false) ∧
      (afterSettle (afterSync page (onKeydown ctx pf page e))
        (onKeydown ctx pf page e)).location = page.location) ∧
    (page.filterPanel = none → ∀ u, ctx.urls.filters = some u → u ≠ "" →
      onKeydown ctx pf page e
        = { sync := [Effect.preventDefault, Effect.assign u], deferred := [] } ∧
      (afterSync page (onKeydown ctx pf page e)).location = u) := by
  have hhelp : ¬ helpCombo e := not_helpCombo_of_key e (by rw [hkey]; decide) (by rw [hkey]; decide)
  have ht : onKeydown ctx pf page e
      = { sync := Effect.preventDefault :: filtersKey ctx page, deferred := [] } := by
    simp [onKeydown, hhelp, hne, hkey]
  rw [ht]
  refine ⟨?_, ?_⟩
  · intro panel hp
    cases hb : page.bootstrapOffcanvas <;>
      simp [filtersKey, hp, hb, isAssign, afterSync, afterSettle, applyEffects, applyEffect]
  · intro hp u hu hu0
    simp [filtersKey, hp, go, hu, hu0, afterSync, applyEffects, applyEffect]

theorem C4_filters_panel_or_navigation_witness :
    onKeydown (readContext guestDataset) browser barePage (pressOnBody "f")
      = { sync := [Effect.preventDefault, Effect.assign "/filters"], deferred := [] } :=
  ((C4_filters_panel_or_navigation (readContext guestDataset) browser barePage
    (pressOnBody "f") rfl rfl).2 rfl "/filters" rfl (by decide)).1

/-- C6: for a key-down event on a non-editable target with key g, c, o, n, p or h, for every
role: if the corresponding URL (catalog, cart, checkout, next, prev, home) is present and
non-empty, the handler prevents the default and changes the location to exactly that URL;
if it is absent or empty, the handler only prevents the default and the page is unchanged.
(These keys are never the help combination.) -/
theorem C6_navigation_keys (ctx : Context) (pf : Platform) (page : Page) (e : KeyEvent)
    (k : String) (url : Option String)
    (hk : (k, url) ∈ [("g", ctx.urls.catalog), ("c", ctx.urls.cart),
      ("o", ctx.urls.checkout), ("n", ctx.urls.next), ("p", ctx.urls.prev),
      ("h", ctx.urls.home)])
    (hkey : e.key = k) (hne : isEditable e.target = false) :
    ¬ helpCombo e ∧
    (∀ u, url = some u → u ≠ "" →
      onKeydown ctx pf page e
        = { sync := [Effect.preventDefault, Effect.assign u], deferred := [] } ∧
      (afterSync page (onKeydown ctx pf page e)).location = u) ∧
    (truthy url = false →
      onKeydown ctx pf page e = { sync := [Effect.preventDefault], deferred := [] } ∧
      afterSync page (onKeydown ctx pf page e) = page) := by
  have hgo : truthy url = false → go url = [] := by
    intro hu
    cases hurl : url with
    | none => rfl
    | some u =>
      rw [hurl] at hu
      have : u = "" := by simpa [truthy] using hu
      simp [go, this]
  have hgo2 : ∀ u, url = some u → u ≠ "" → go url = [Effect.assign u] := by
    intro u hu hu0; simp [go, hu, hu0]
  have hhelp : ¬ helpCombo e := by
    simp only [List.mem_cons, Prod.mk.injEq, List.mem_singleton, List.not_mem_nil,
      or_false] at hk
    rcases hk with h | h | h | h | h | h <;>
      exact not_helpCombo_of_key e (by rw [hkey, h.1]; decide) (by rw [hkey, h.1]; decide)
  have ht : onKeydown ctx pf page e
      = { sync := Effect.preventDefault :: go url, deferred := [] } := by
    simp only [List.mem_cons, Prod.mk.injEq, List.mem_singleton, List.not_mem_nil,
      or_false] at hk
    rcases hk with h | h | h | h | h | h <;>
      · obtain ⟨h1, h2⟩ := h
        subst h1 h2
        simp [onKeydown, hhelp, hne, hkey]
  rw [ht]
  refine ⟨hhelp, ?_, ?_⟩
  · intro u hu hu0
    rw [hgo2 u hu hu0]
    exact ⟨rfl, rfl⟩
  · intro hu
    rw [hgo hu]
    exact ⟨rfl, rfl⟩

theorem C6_navigation_keys_witness :
    (readContext guestDataset).role = "guest" ∧
    (afterSync barePage
      (onKeydown (readContext guestDataset) browser barePage (pressOnBody "g"))).location
      = "/catalog" :=
  ⟨rfl, ((C6_navigation_keys (readContext guestDataset) browser barePage (pressOnBody "g")
    "g" (some "/catalog") (by simp [readContext, guestDataset]) rfl rfl).2.1
    "/catalog" rfl (by decide)).2⟩

/-- C8 as stated fails: with an open overlay that has no descendant matching the dismiss
selector, Escape pressed in an `<input>` clicks nothing. -/
theorem C8_no_click_without_dismiss_control :
    staticModalPage.opened = some { node := 5, dismiss := none } ∧
    onKeydown (readContext guestDataset) browser staticModalPage (pressInInput "Escape")
      = { sync := [], deferred := [] } ∧
    ∀ n, Effect.click n ∉
      (onKeydown (readContext guestDataset) browser staticModalPage
        (pressInInput "Escape")).sync := by
  have h : onKeydown (readContext guestDataset) browser staticModalPage (pressInInput "Escape")
      = { sync := [], deferred := [] } := by decide
  refine ⟨rfl, h, ?_⟩
  intro n
  rw [h]
  simp

/-- C8 (amended): for a key-down event with key Escape whose target is an editable field:
when an open overlay exists (first element matching `.offcanvas.show, .modal.show`) and it
has a dismiss control (its first descendant matching the dismiss selector), the handler
clicks that control and does nothing else; when the open overlay has no such descendant,
or when no open overlay exists, nothing happens. The page location is unchanged in every
case and the default is not prevented. -/
theorem C8_escape_dismisses_overlay (ctx : Context) (pf : Platform) (page : Page)
    (e : KeyEvent) (hkey : e.key = "Escape") (hed : isEditable e.target = true) :
    (∀ ov btn, page.opened = some ov → ov.dismiss = some btn →
      onKeydown ctx pf page e = { sync := [Effect.click btn], deferred := [] }) ∧
    (∀ ov, page.opened = some ov → ov.dismiss = none →
      onKeydown ctx pf page e = { sync := [], deferred := [] }) ∧
    (page.opened = none → onKeydown ctx pf page e = { sync := [], deferred := [] }) ∧
    afterSettle (afterSync page (onKeydown ctx pf page e)) (onKeydown ctx pf page e) = page ∧
    Effect.preventDefault ∉ (onKeydown ctx pf page e).sync := by
  have hhelp : ¬ helpCombo e :=
    not_helpCombo_of_key e (by rw [hkey]; decide) (by rw [hkey]; decide)
  have ht : onKeydown ctx pf page e
      = { sync := typingBranch page "Escape", deferred := [] } := by
    simp [onKeydown, hhelp, hed, hkey]
  rw [ht]
  refine ⟨?_, ?_, ?_, ?_, ?_⟩
  · intro ov btn ho hd; simp [typingBranch, ho, hd]
  · intro ov ho hd; simp [typingBranch, ho, hd]
  · intro ho; simp [typingBranch, ho]
  · rcases ho : page.opened with _ | ⟨n, _ | btn⟩ <;>
      simp [typingBranch, ho, afterSync, afterSettle, applyEffects, applyEffect]
  · rcases ho : page.opened with _ | ⟨n, _ | btn⟩ <;> simp [typingBranch, ho]

theorem C8_escape_dismisses_overlay_witness :
    onKeydown (readContext guestDataset) browser catalogPage (pressInInput "Escape")
      = { sync := [Effect.click 4], deferred := [] } :=
  (C8_escape_dismisses_overlay (readContext guestDataset) browser catalogPage
    (pressInInput "Escape") rfl rfl).1 { node := 2, dismiss := some 4 } 4 rfl rfl

/-- The role read at start-up is not an elevated one when the attribute is absent, empty
or not one of the four elevated names. -/
theorem readRole_not_elevated (r : Option String) (hr : ∀ s, r = some s → ¬ elevated s) :
    ¬ elevated (readRole r) := by
  cases r with
  | none => decide
  | some s =>
    by_cases hs : s = ""
    · subst hs; decide
    · simpa [readRole, hs] using hr s rfl

/-- The handler reads the role only through the test of `case 'a'`. -/
theorem onKeydown_role_irrelevant (c1 c2 : Context) (pf : Platform) (page : Page)
    (e : KeyEvent) (hurls : c1.urls = c2.urls) (h1 : ¬ elevated c1.role)
    (h2 : ¬ elevated c2.role) : onKeydown c1 pf page e = onKeydown c2 pf page e := by
  simp only [onKeydown, filtersKey, hurls, h1, h2, toggleTheme]

/-- C9: a role attribute that is absent, empty, or present but not one of manager, admin,
staff, superuser is treated exactly as `guest`: for every such role, every key event, every
platform and page, the effects of the handler equal its effects with role `guest`; in
particular pressing `a` has no effect at all (no navigation, default not prevented). -/
theorem C9_unrecognised_role_is_guest (ds : Dataset) (pf : Platform) (page : Page)
    (e : KeyEvent) (hr : ∀ s, ds.role = some s → ¬ elevated s) :
    onKeydown (readContext ds) pf page e
      = onKeydown (readContext { ds with role := some "guest" }) pf page e ∧
    (e.key = "a" → onKeydown (readContext ds) pf page e = { sync := [], deferred := [] }) := by
  have hel : ¬ elevated (readContext ds).role := readRole_not_elevated ds.role hr
  refine ⟨onKeydown_role_irrelevant _ _ pf page e rfl hel (show ¬ elevated "guest" by decide), ?_⟩
  intro hkey
  have hhelp : ¬ helpCombo e :=
    not_helpCombo_of_key e (by rw [hkey]; decide) (by rw [hkey]; decide)
  cases hed : isEditable e.target <;>
    simp [onKeydown, hhelp, hed, hkey, hel, typingBranch]

theorem C9_unrecognised_role_is_guest_witness :
    onKeydown (readContext { managerDataset with role := some "Admin" }) browser catalogPage
        (pressOnBody "a") = { sync := [], deferred := [] } :=
  (C9_unrecognised_role_is_guest { managerDataset with role := some "Admin" } browser
    catalogPage (pressOnBody "a") (by intro s hs; cases hs; decide)).2 rfl

/-- C10: for a key-down event on a non-editable target that is not the help combination,
the handler prevents the default if and only if the key is exactly one of g, /, c, o, f, n,
p, t, h, r, or the key is `a` and the role is manager, admin, staff or superuser, whatever
the URLs are; for every other key (Escape and upper-case letters included) the handler has
no effect at all and leaves the page unchanged. -/
theorem C10_intercepted_keys (ctx : Context) (pf : Platform) (page : Page) (e : KeyEvent)
    (hne : isEditable e.target = false) (hhelp : ¬ helpCombo e) :
    (Effect.preventDefault ∈ (onKeydown ctx pf page e).sync ↔
      (e.key ∈ ["g", "/", "c", "o", "f", "n", "p", "t", "h", "r"] ∨
        (e.key = "a" ∧ elevated ctx.role))) ∧
    (¬ (e.key ∈ ["g", "/", "c", "o", "f", "n", "p", "t", "h", "r"] ∨
        (e.key = "a" ∧ elevated ctx.role)) →
      onKeydown ctx pf page e = { sync := [], deferred := [] } ∧
      afterSettle (afterSync page (onKeydown ctx pf page e)) (onKeydown ctx pf page e)
        = page) := by
  simp only [List.mem_cons, List.mem_singleton, List.not_mem_nil, or_false]
  by_cases hg : e.key = "g"
  · simp [onKeydown, hhelp, hne, hg]
  by_cases hsl : e.key = "/"
  · simp [onKeydown, hhelp, hne, hsl]
  by_cases hc : e.key = "c"
  · simp [onKeydown, hhelp, hne, hc]
  by_cases ho : e.key = "o"
  · simp [onKeydown, hhelp, hne, ho]
  by_cases hf : e.key = "f"
  · simp [onKeydown, hhelp, hne, hf]
  by_cases hn : e.key = "n"
  · simp [onKeydown, hhelp, hne, hn]
  by_cases hp : e.key = "p"
  · simp [onKeydown, hhelp, hne, hp]
  by_cases ht : e.key = "t"
  · simp [onKeydown, hhelp, hne, ht]
  by_cases hh : e.key = "h"
  · simp [onKeydown, hhelp, hne, hh]
  by_cases hrr : e.key = "r"
  · simp [onKeydown, hhelp, hne, hrr]
  by_cases ha : e.key = "a"
  · by_cases hel : elevated ctx.role
    · simp [onKeydown, hhelp, hne, ha, hel]
    · simp [onKeydown, hhelp, hne, ha, hel, afterSync, afterSettle, applyEffects]
  · simp [onKeydown, hhelp, hne, hg, hsl, hc, ho, hf, hn, hp, ht, hh, hrr, ha,
      afterSync, afterSettle, applyEffects]

theorem C10_intercepted_keys_witness :
    onKeydown (readContext managerDataset) browser catalogPage (pressOnBody "Escape")
        = { sync := [], deferred := [] } ∧
    onKeydown (readContext managerDataset) browser catalogPage
        { key := "R", shiftKey := true, target := some bodyElement }
        = { sync := [], deferred := [] } :=
  ⟨((C10_intercepted_keys (readContext managerDataset) browser catalogPage
      (pressOnBody "Escape") rfl (by decide)).2 (by decide)).1,
   ((C10_intercepted_keys (readContext managerDataset) browser catalogPage
      { key := "R", shiftKey := true, target := some bodyElement } rfl (by decide)).2
      (by decide)).1⟩

/-! ## Theme toggle -/

theorem mem_toggleClass (cls : String) (classes : List String) :
    cls ∈ toggleClass cls classes ↔ cls ∉ classes := by
  unfold toggleClass
  split_ifs with h <;> simp [h]

theorem applyEffects_cons (p : Page) (x : Effect) (es : List Effect) :
    applyEffects p (x :: es) = applyEffects (applyEffect p x) es := rfl

theorem applyEffect_csrfCookie (p : Page) (x : Effect) :
    (applyEffect p x).csrfCookie = p.csrfCookie := by
  cases x <;> rfl

theorem applyEffects_csrfCookie (p : Page) (es : List Effect) :
    (applyEffects p es).csrfCookie = p.csrfCookie := by
  induction es generalizing p with
  | nil => rfl
  | cons x es ih => rw [applyEffects_cons, ih, applyEffect_csrfCookie]

theorem toggleTheme_congr (ctx : Context) (pf : Platform) (p q : Page)
    (h : q.csrfCookie = p.csrfCookie) :
    (toggleTheme ctx pf q).sync = (toggleTheme ctx pf p).sync ∧
    (toggleTheme ctx pf q).deferred = (toggleTheme ctx pf p).deferred := by
  simp [toggleTheme, getCSRF, h]

/-- The shapes of a run of `toggleTheme`: without a request the announcement is made at
once, with a request it is made after the request settled. -/
theorem toggleTheme_cases (ctx : Context) (pf : Platform) (page : Page) :
    ((toggleTheme ctx pf page).sync
        = [Effect.toggleRootClass "theme-dark", Effect.announce themeMessage] ∧
      (toggleTheme ctx pf page).deferred = [] ∧
      (truthy ctx.urls.toggleTheme = false ∨ ∃ err, getCSRF pf page = Except.error err)) ∨
    (∃ url token, ctx.urls.toggleTheme = some url ∧ url ≠ "" ∧
      getCSRF pf page = Except.ok token ∧
      (toggleTheme ctx pf page).sync
        = [Effect.toggleRootClass "theme-dark", Effect.fetch url token] ∧
      (toggleTheme ctx pf page).deferred = [Effect.announce themeMessage]) := by
  cases hu : ctx.urls.toggleTheme with
  | none => left; simp [toggleTheme, hu, truthy]
  | some url =>
    by_cases h0 : url = ""
    · left; simp [toggleTheme, hu, truthy, h0]
    · cases hc : getCSRF pf page with
      | error err => left; simp [toggleTheme, hu, h0, hc]
      | ok token => right; exact ⟨url, token, rfl, h0, rfl, by simp [toggleTheme, hu, h0, hc]⟩

theorem onKeydown_t (ctx : Context) (pf : Platform) (page : Page) (e : KeyEvent)
    (hkey : e.key = "t") (hne : isEditable e.target = false) :
    onKeydown ctx pf page e
      = { sync := Effect.preventDefault :: (toggleTheme ctx pf page).sync
          deferred := (toggleTheme ctx pf page).deferred } := by
  have hhelp : ¬ helpCombo e :=
    not_helpCombo_of_key e (by rw [hkey]; decide) (by rw [hkey]; decide)
  simp [onKeydown, hhelp, hne, hkey]

/-- One press of `t`: the marker is negated when the listener returns, the later
announcement does not touch it, and the cookie is not touched. -/
theorem press_t_theme (ctx : Context) (pf : Platform) (page : Page) (e : KeyEvent)
    (hkey : e.key = "t") (hne : isEditable e.target = false) :
    themeDark (afterSync page (onKeydown ctx pf page e)) = !themeDark page ∧
    (∀ q : Page, themeDark (afterSettle q (onKeydown ctx pf page e)) = themeDark q) := by
  rw [onKeydown_t ctx pf page e hkey hne]
  rcases toggleTheme_cases ctx pf page with ⟨hs, hd, _⟩ | ⟨url, token, _, _, _, hs, hd⟩
  · rw [hs, hd]
    refine ⟨?_, fun q => rfl⟩
    simp only [afterSync, applyEffects, List.foldl, applyEffect, themeDark, mem_toggleClass]
    by_cases h : "theme-dark" ∈ page.rootClasses <;> simp [h]
  · rw [hs, hd]
    refine ⟨?_, fun q => rfl⟩
    simp only [afterSync, applyEffects, List.foldl, applyEffect, themeDark, mem_toggleClass]
    by_cases h : "theme-dark" ∈ page.rootClasses <;> simp [h]

/-- One press of `t`: the number of requests. -/
theorem press_t_requests (ctx : Context) (pf : Platform) (page : Page) (e : KeyEvent)
    (hkey : e.key = "t") (hne : isEditable e.target = false) :
    requests (onKeydown ctx pf page e) ≤ 1 ∧
    (truthy ctx.urls.toggleTheme = false → requests (onKeydown ctx pf page e) = 0) ∧
    (∀ err, getCSRF pf page = Except.error err → requests (onKeydown ctx pf page e) = 0) ∧
    (∀ url token, ctx.urls.toggleTheme = some url → url ≠ "" →
      getCSRF pf page = Except.ok token →
      requests (onKeydown ctx pf page e) = 1 ∧
      Effect.fetch url token ∈ (onKeydown ctx pf page e).sync) := by
  rw [onKeydown_t ctx pf page e hkey hne]
  rcases toggleTheme_cases ctx pf page with ⟨hs, hd, hwhy⟩ | ⟨url, token, hu, h0, hc, hs, hd⟩
  · rw [hs, hd]
    refine ⟨by simp [requests, isFetch], fun _ => by simp [requests, isFetch],
      fun _ _ => by simp [requests, isFetch], ?_⟩
    intro url token hu h0 hc
    rcases hwhy with hw | ⟨err, hw⟩
    · simp [hu, truthy, h0] at hw
    · rw [hc] at hw; cases hw
  · rw [hs, hd]
    refine ⟨by simp [requests, isFetch], ?_, ?_, ?_⟩
    · intro hw; simp [hu, truthy, h0] at hw
    · intro err hw; rw [hc] at hw; cases hw
    · intro url2 token2 hu2 _ hc2
      rw [hu] at hu2; rw [hc] at hc2
      cases hu2; cases hc2
      simp [requests, isFetch]

theorem getCSRF_congr (pf : Platform) (p q : Page) (h : q.csrfCookie = p.csrfCookie) :
    getCSRF pf q = getCSRF pf p := by
  simp [getCSRF, h]

/-- C5 as stated fails: with the theme endpoint configured and a `csrftoken` cookie whose
value is a malformed escape, `decodeURIComponent` throws while the arguments of `fetch`
are evaluated, and neither of the two presses of `t` issues a request. -/
theorem C5_no_request_with_malformed_cookie :
    (readContext guestDataset).urls.toggleTheme = some "/theme/toggle" ∧
    malformedCookiePage.csrfCookie = some "%" ∧
    decodeURIComponent "%" = Except.error uriError ∧
    (pressTwice (readContext guestDataset) browser malformedCookiePage
      (pressOnBody "t") false).first
      = { sync := [Effect.preventDefault, Effect.toggleRootClass "theme-dark",
                   Effect.announce themeMessage], deferred := [] } ∧
    requests (pressTwice (readContext guestDataset) browser malformedCookiePage
      (pressOnBody "t") false).first = 0 ∧
    requests (pressTwice (readContext guestDataset) browser malformedCookiePage
      (pressOnBody "t") false).second = 0 := by
  refine ⟨rfl, rfl, rfl, ?_, ?_, ?_⟩ <;> decide

/-- C5 (amended): pressing `t` twice in succession on a non-editable target returns the
`theme-dark` marker on the document root to its original presence or absence (negated
after the first press, original after the second and after every request has settled),
for every initial class list, context and platform, whether or not the first request
settles before the second press. Each press issues at most one request to the theme
endpoint, so the two presses issue at most two: exactly one per press when the endpoint is
configured (non-empty) and reading the CSRF token does not throw, none when the endpoint is
not configured, and none when decoding the CSRF cookie throws. -/
theorem C5_theme_toggle_twice (ctx : Context) (pf : Platform) (page : Page) (e : KeyEvent)
    (settledBetween : Bool) (hkey : e.key = "t") (hne : isEditable e.target = false) :
    themeDark (pressTwice ctx pf page e settledBetween).afterFirst = !themeDark page ∧
    themeDark (pressTwice ctx pf page e settledBetween).afterSecond = themeDark page ∧
    themeDark (pressTwice ctx pf page e settledBetween).final = themeDark page ∧
    requests (pressTwice ctx pf page e settledBetween).first
      + requests (pressTwice ctx pf page e settledBetween).second ≤ 2 ∧
    (truthy ctx.urls.toggleTheme = false →
      requests (pressTwice ctx pf page e settledBetween).first = 0 ∧
      requests (pressTwice ctx pf page e settledBetween).second = 0) ∧
    (∀ url token, ctx.urls.toggleTheme = some url → url ≠ "" →
      getCSRF pf page = Except.ok token →
      requests (pressTwice ctx pf page e settledBetween).first = 1 ∧
      requests (pressTwice ctx pf page e settledBetween).second = 1 ∧
      Effect.fetch url token ∈ (pressTwice ctx pf page e settledBetween).first.sync ∧
      Effect.fetch url token ∈ (pressTwice ctx pf page e settledBetween).second.sync) ∧
    (∀ err, getCSRF pf page = Except.error err →
      requests (pressTwice ctx pf page e settledBetween).first = 0 ∧
      requests (pressTwice ctx pf page e settledBetween).second = 0) := by
  -- the page seen by the second press
  obtain ⟨q1, hq1⟩ : ∃ q1, q1 = (if settledBetween = true
      then afterSettle (afterSync page (onKeydown ctx pf page e)) (onKeydown ctx pf page e)
      else afterSync page (onKeydown ctx pf page e)) := ⟨_, rfl⟩
  have hcookie : q1.csrfCookie = page.csrfCookie := by
    rw [hq1]
    cases settledBetween <;> simp [afterSync, afterSettle, applyEffects_csrfCookie]
  have hcsrf : getCSRF pf q1 = getCSRF pf page := getCSRF_congr pf page q1 hcookie
  obtain ⟨hth1, hset1⟩ := press_t_theme ctx pf page e hkey hne
  obtain ⟨hth2, hset2⟩ := press_t_theme ctx pf q1 e hkey hne
  obtain ⟨hle1, hno1, herr1, hone1⟩ := press_t_requests ctx pf page e hkey hne
  obtain ⟨hle2, hno2, herr2, hone2⟩ := press_t_requests ctx pf q1 e hkey hne
  have hq1dark : themeDark q1 = !themeDark page := by
    rw [hq1]
    cases settledBetween
    · simpa using hth1
    · simp only [if_true]; rw [hset1]; exact hth1
  have hfirst : (pressTwice ctx pf page e settledBetween).first = onKeydown ctx pf page e := rfl
  have hafter1 : (pressTwice ctx pf page e settledBetween).afterFirst
      = afterSync page (onKeydown ctx pf page e) := rfl
  have hsecond : (pressTwice ctx pf page e settledBetween).second = onKeydown ctx pf q1 e := by
    rw [hq1]; rfl
  have hafter2 : (pressTwice ctx pf page e settledBetween).afterSecond
      = afterSync q1 (onKeydown ctx pf q1 e) := by
    rw [hq1]; rfl
  have hfinal : themeDark (pressTwice ctx pf page e settledBetween).final = themeDark page := by
    have hp2 : themeDark (afterSync q1 (onKeydown ctx pf q1 e)) = themeDark page := by
      rw [hth2, hq1dark]; simp
    have hfin : (pressTwice ctx pf page e settledBetween).final
        = (if settledBetween = true
            then afterSettle (afterSync q1 (onKeydown ctx pf q1 e)) (onKeydown ctx pf q1 e)
            else afterSettle (afterSettle (afterSync q1 (onKeydown ctx pf q1 e))
              (onKeydown ctx pf page e)) (onKeydown ctx pf q1 e)) := by
      rw [hq1]; rfl
    rw [hfin]
    cases settledBetween
    · simp only [Bool.false_eq_true, if_false]; rw [hset2, hset1]; exact hp2
    · simp only [if_true]; rw [hset2]; exact hp2
  rw [hfirst, hafter1, hsecond, hafter2]
  refine ⟨hth1, ?_, hfinal, ?_, ?_, ?_, ?_⟩
  · rw [hth2, hq1dark]; simp
  · omega
  · intro hu; exact ⟨hno1 hu, hno2 hu⟩
  · intro url token hu h0 hc
    obtain ⟨ha, hb⟩ := hone1 url token hu h0 hc
    obtain ⟨hc2, hd⟩ := hone2 url token hu h0 (hcsrf.trans hc)
    exact ⟨ha, hc2, hb, hd⟩
  · intro err hc
    exact ⟨herr1 err hc, herr2 err (hcsrf.trans hc)⟩

theorem C5_theme_toggle_twice_witness :
    themeDark catalogPage = false ∧
    themeDark (pressTwice (readContext guestDataset) browser catalogPage
      (pressOnBody "t") true).afterFirst = true ∧
    themeDark (pressTwice (readContext guestDataset) browser catalogPage
      (pressOnBody "t") true).afterSecond = false ∧
    requests (pressTwice (readContext guestDataset) browser catalogPage
      (pressOnBody "t") true).first = 1 :=
  ⟨by decide,
   (C5_theme_toggle_twice (readContext guestDataset) browser catalogPage
      (pressOnBody "t") true rfl rfl).1,
   (C5_theme_toggle_twice (readContext guestDataset) browser catalogPage
      (pressOnBody "t") true rfl rfl).2.1,
   ((C5_theme_toggle_twice (readContext guestDataset) browser catalogPage
      (pressOnBody "t") true rfl rfl).2.2.2.2.2.1 "/theme/toggle" "abc123" rfl
      (by decide) rfl).1⟩

/-- The state of the page once a run of `toggleTheme` has completed. -/
theorem settled_toggleTheme (ctx : Context) (pf : Platform) (page : Page) :
    (settled page (toggleTheme ctx pf page)).rootClasses
      = toggleClass "theme-dark" page.rootClasses ∧
    (settled page (toggleTheme ctx pf page)).liveText = themeMessage := by
  rcases toggleTheme_cases ctx pf page with ⟨hs, hd, _⟩ | ⟨url, token, _, _, _, hs, hd⟩ <;>
    simp [settled, hs, hd, applyEffects, applyEffect]

/-- C7: for every outcome of the theme notification (the request succeeds, the request
rejects, decoding the CSRF cookie throws, or no endpoint is configured), the promise of
`toggleTheme` is fulfilled (no error reaches the caller), the `theme-dark` class on the
document root is left toggled (no rollback) and the announcement is written into the live
region; the final class list and announcement do not depend on the outcome: any two runs
that start from the same class list end with the same class list and the same text. -/
theorem C7_theme_toggle_survives_notification (ctx : Context) (pf : Platform) (page : Page) :
    (toggleTheme ctx pf page).outcome = Except.ok () ∧
    (settled page (toggleTheme ctx pf page)).rootClasses
      = toggleClass "theme-dark" page.rootClasses ∧
    themeDark (settled page (toggleTheme ctx pf page)) = !themeDark page ∧
    (settled page (toggleTheme ctx pf page)).liveText = themeMessage ∧
    (∀ (ctx2 : Context) (pf2 : Platform) (page2 : Page),
      page2.rootClasses = page.rootClasses →
      (settled page2 (toggleTheme ctx2 pf2 page2)).rootClasses
        = (settled page (toggleTheme ctx pf page)).rootClasses ∧
      (settled page2 (toggleTheme ctx2 pf2 page2)).liveText
        = (settled page (toggleTheme ctx pf page)).liveText) := by
  obtain ⟨hcls, htxt⟩ := settled_toggleTheme ctx pf page
  refine ⟨?_, hcls, ?_, htxt, ?_⟩
  · cases hu : ctx.urls.toggleTheme with
    | none => simp [toggleTheme, hu]
    | some url =>
      by_cases h0 : url = ""
      · simp [toggleTheme, hu, h0]
      · cases hc : getCSRF pf page with
        | error err => simp [toggleTheme, hu, h0, hc, Except.tryCatch]
        | ok token =>
          cases hf : pf.fetchRejects url <;>
            simp [toggleTheme, hu, h0, hc, hf, Except.tryCatch]
  · simp only [themeDark, hcls, mem_toggleClass]
    by_cases h : "theme-dark" ∈ page.rootClasses <;> simp [h]
  · intro ctx2 pf2 page2 hsame
    obtain ⟨hcls2, htxt2⟩ := settled_toggleTheme ctx2 pf2 page2
    rw [hcls2, htxt2, hcls, htxt, hsame]
    exact ⟨rfl, rfl⟩

theorem C7_theme_toggle_survives_notification_witness :
    (toggleTheme (readContext guestDataset) browser catalogPage).sync
      = [Effect.toggleRootClass "theme-dark", Effect.fetch "/theme/toggle" "abc123"] ∧
    (toggleTheme (readContext guestDataset) offlineBrowser catalogPage).outcome
      = Except.ok () ∧
    (toggleTheme (readContext guestDataset) browser malformedCookiePage).outcome
      = Except.ok () ∧
    (settled malformedCookiePage
      (toggleTheme (readContext guestDataset) browser malformedCookiePage)).liveText
      = themeMessage ∧
    (settled barePage
      (toggleTheme (readContext { guestDataset with urlToggleTheme := none }) browser
        barePage)).rootClasses
      = (settled malformedCookiePage
          (toggleTheme (readContext guestDataset) browser malformedCookiePage)).rootClasses :=
  ⟨by decide,
   (C7_theme_toggle_survives_notification (readContext guestDataset) offlineBrowser
      catalogPage).1,
   (C7_theme_toggle_survives_notification (readContext guestDataset) browser
      malformedCookiePage).1,
   (C7_theme_toggle_survives_notification (readContext guestDataset) browser
      malformedCookiePage).2.2.2.1,
   ((C7_theme_toggle_survives_notification (readContext guestDataset) browser
      malformedCookiePage).2.2.2.2
      (readContext { guestDataset with urlToggleTheme := none }) browser barePage rfl).1⟩

end Hotkeys
